import Mathlib

/-!
Verification of the Google Keep reader connector (`llama_hub/google_keep/base.py`).

The connector has three operations:

* `load_data (note_ids)` — rejects a `None` list, otherwise fetches each note
  in order and wraps it into a `Document` with metadata `{"note_id": id}`;
* `_load_note (note_id)` — obtains credentials, issues one remote
  `notes().get(name="notes/" + id)` call, and normalizes the response into
  `"Title: " + title + "\n" + "Body: " + body.text`;
* `_get_credentials ()` — succeeds iff the local file `service_account.json`
  exists, otherwise raises `RuntimeError`.

The embedding is explicit about effects: the external world is an `Env`
(whether the credential file exists, and the remote API as a function from
resource path to response), Python exceptions become an error type
`KeepError`, and every operation returns its result together with a trace of
the observable external events (credential loads and remote calls), so that
claims about "no remote call is made" are statable.
-/

/-- The `body` object of a remote note response.  `body.get("text")` in the
source returns the `text` field or `None`, hence an `Option`. -/
structure NoteBody where
  text : Option String
deriving Repr, DecidableEq

/-- A remote note response: a duck-typed record where `note.get("title")` and
`note.get("body")` may each be absent (`None`). -/
structure NoteResponse where
  title : Option String
  body : Option NoteBody
deriving Repr, DecidableEq

/-- The output record: `Document(text=note, extra_info={"note_id": note_id})`.
The metadata dict is embedded as an association list. -/
structure Document where
  text : String
  extra_info : List (String × String)
deriving Repr, DecidableEq

/-- The Python exceptions the connector can raise.
`valueError` is the explicit `ValueError` for a `None` note-id list;
`runtimeError` is the explicit `RuntimeError` for a missing credential file;
`remoteError` stands for any exception raised by the remote call itself;
`typeError` is Python's `TypeError` from `"..." + None` (missing `title`
or missing `body.text`); `attributeError` is Python's `AttributeError`
from `None.get("text")` (missing `body`). -/
inductive KeepError where
  | valueError
  | runtimeError
  | remoteError
  | typeError
  | attributeError
deriving Repr, DecidableEq

/-- Observable external events: loading the credential file, and one remote
API call per fetched resource path. -/
inductive Event where
  | credLoad
  | remoteCall (path : String)
deriving Repr, DecidableEq

/-- The external world: whether `service_account.json` exists in the working
directory, and the remote notes service as a function from the resource path
(`"notes/" + note_id`) to either a failure or a response. -/
structure Env where
  credentialFileExists : Bool
  remote : String → Except Unit NoteResponse

/-- `GoogleKeepReader._get_credentials`: if `os.path.exists("service_account.json")`
the credential is loaded and returned (embedded as `Unit`), otherwise
`RuntimeError('Need to authenticate with service account.')` is raised. -/
def _get_credentials (env : Env) : Except KeepError Unit :=
  if env.credentialFileExists then Except.ok () else Except.error KeepError.runtimeError

/-- `GoogleKeepReader._load_note`: obtains credentials, builds the service,
executes `notes().get(name=f"notes/{note_id}")`, and returns
`'Title: ' + note.get('title') + '\n' + 'Body: ' + note.get("body").get("text")`.
The trace records the credential load and the remote call; a missing `title`
or `body.text` is a `TypeError` (`str + None`), a missing `body` is an
`AttributeError` (`None.get`). -/
def _load_note (env : Env) (note_id : String) : Except KeepError String × List Event :=
  match _get_credentials env with
  | Except.error e => (Except.error e, [Event.credLoad])
  | Except.ok _ =>
    match env.remote ("notes/" ++ note_id) with
    | Except.error _ =>
      (Except.error KeepError.remoteError,
       [Event.credLoad, Event.remoteCall ("notes/" ++ note_id)])
    | Except.ok note =>
      (match note.title with
       | none => Except.error KeepError.typeError
       | some t =>
         match note.body with
         | none => Except.error KeepError.attributeError
         | some b =>
           match b.text with
           | none => Except.error KeepError.typeError
           | some bt => Except.ok ("Title: " ++ t ++ "\n" ++ "Body: " ++ bt),
       [Event.credLoad, Event.remoteCall ("notes/" ++ note_id)])

/-- The loop body of `load_data`: for each id in order, `_load_note` it and
append `Document(text=note, extra_info={"note_id": note_id})`; the first
raised exception aborts the loop and discards the accumulated results. -/
def load_data_go (env : Env) : List String → Except KeepError (List Document) × List Event
  | [] => (Except.ok [], [])
  | note_id :: rest =>
    match _load_note env note_id with
    | (Except.error e, ev) => (Except.error e, ev)
    | (Except.ok note, ev) =>
      match load_data_go env rest with
      | (Except.error e, ev2) => (Except.error e, ev ++ ev2)
      | (Except.ok docs, ev2) =>
        (Except.ok ({ text := note, extra_info := [("note_id", note_id)] } :: docs),
         ev ++ ev2)

/-- `GoogleKeepReader.load_data`: raises `ValueError` on a `None` id list,
otherwise runs the fetch loop. -/
def load_data (env : Env) (note_ids : Option (List String)) :
    Except KeepError (List Document) × List Event :=
  match note_ids with
  | none => (Except.error KeepError.valueError, [])
  | some ids => load_data_go env ids

/-- `_load_note` succeeds on this id in this environment. -/
def noteOk (env : Env) (note_id : String) : Prop :=
  ∃ t, (_load_note env note_id).1 = Except.ok t

/-- A concrete environment: credentials present, every note answering with
title `"Groceries"` and plain-text body `"Milk\nEggs"`. -/
def envG : Env :=
  { credentialFileExists := true
    remote := fun _ =>
      Except.ok { title := some "Groceries", body := some { text := some "Milk\nEggs" } } }

/-- A concrete environment with the credential file absent. -/
def envNoCred : Env :=
  { credentialFileExists := false
    remote := fun _ =>
      Except.ok { title := some "T", body := some { text := some "B" } } }

/-- On a well-formed response (title and plain-text body present) the fetch
succeeds with the normalized text, after one credential load and one remote
call. -/
theorem load_note_ok_helper (env : Env) (note_id T B : String)
    (hc : env.credentialFileExists = true)
    (hr : env.remote ("notes/" ++ note_id) =
      Except.ok { title := some T, body := some { text := some B } }) :
    _load_note env note_id =
      (Except.ok ("Title: " ++ T ++ "\n" ++ "Body: " ++ B),
       [Event.credLoad, Event.remoteCall ("notes/" ++ note_id)]) := by
  simp [ _load_note, _get_credentials, hc, hr]

/-- Claim C1: for every note whose remote response has title `T` and
plain-text body `B`, `_load_note` returns exactly
`"Title: " ++ T ++ "\n" ++ "Body: " ++ B`. -/
theorem load_note_title_body_text (env : Env) (note_id T B : String)
    (hc : env.credentialFileExists = true)
    (hr : env.remote ("notes/" ++ note_id) =
      Except.ok { title := some T, body := some { text := some B } }) :
    (_load_note env note_id).1 = Except.ok ("Title: " ++ T ++ "\n" ++ "Body: " ++ B) := by
  rw [load_note_ok_helper env note_id T B hc hr]

/-- Witness for C1 at the spec's example: title `"Groceries"`, body
`"Milk\nEggs"`. -/
theorem load_note_title_body_text_witness :
    (_load_note envG "X").1 =
      Except.ok ("Title: " ++ "Groceries" ++ "\n" ++ "Body: " ++ "Milk\nEggs") :=
  load_note_title_body_text envG "X" "Groceries" "Milk\nEggs" rfl rfl

/-- Claim C4: `load_data` on a `None` id list fails with `ValueError` before
any credential load or remote call, returning no result. -/
theorem load_data_none_invalid_argument (env : Env) :
    load_data env none = (Except.error KeepError.valueError, []) := rfl

/-- Claim C5: `load_data` on the empty id list succeeds with the empty
sequence and performs zero remote calls and zero credential loads. -/
theorem load_data_empty (env : Env) :
    load_data env (some []) = (Except.ok [], []) := rfl

/-- If the fetch loop succeeds, the metadata of the output records are
exactly `{"note_id": id}` for the input ids, in input order. -/
theorem load_data_go_extra (env : Env) :
    ∀ (ids : List String) (docs : List Document),
      (load_data_go env ids).1 = Except.ok docs →
      docs.map Document.extra_info = ids.map (fun note_id => [("note_id", note_id)]) := by
  intro ids
  induction ids with
  | nil =>
    intro docs h
    simp [load_data_go] at h
    simp [h.symm]
  | cons id rest ih =>
    intro docs h
    simp only [load_data_go] at h
    rcases hl : _load_note env id with ⟨res, ev⟩
    rw [hl] at h
    cases res with
    | error e => simp at h
    | ok t =>
      rcases hg : load_data_go env rest with ⟨res2, ev2⟩
      rw [hg] at h
      cases res2 with
      | error e => simp at h
      | ok docs2 =>
        simp at h
        have h2 := ih docs2 (by rw [hg])
        subst h
        simp [h2]

/-- Claim C2: whenever every fetch succeeds, `load_data` returns exactly one
`Document` per input id, in input order (so output length equals input
length, and the i-th record's metadata names the i-th id). -/
theorem load_data_length_order (env : Env) (ids : List String) (docs : List Document)
    (h : (load_data env (some ids)).1 = Except.ok docs) :
    docs.length = ids.length ∧
    docs.map Document.extra_info = ids.map (fun note_id => [("note_id", note_id)]) := by
  have hm := load_data_go_extra env ids docs h
  refine ⟨?_, hm⟩
  have := congrArg List.length hm
  simpa using this

/-- Witness for C2: one id, one record, matching metadata. -/
theorem load_data_length_order_witness :
    ([{ text := "Title: Groceries\nBody: Milk\nEggs",
        extra_info := [("note_id", "X")] }] : List Document).length =
      (["X"] : List String).length ∧
    ([{ text := "Title: Groceries\nBody: Milk\nEggs",
        extra_info := [("note_id", "X")] }] : List Document).map Document.extra_info =
      (["X"] : List String).map (fun note_id => [("note_id", note_id)]) :=
  load_data_length_order envG ["X"]
    [{ text := "Title: Groceries\nBody: Milk\nEggs", extra_info := [("note_id", "X")] }] rfl

/-- Claim C3: for every successfully fetched id, the record produced by
`load_data` carries metadata containing that id under the key `"note_id"`. -/
theorem load_data_metadata_note_id (env : Env) (ids : List String) (docs : List Document)
    (h : (load_data env (some ids)).1 = Except.ok docs)
    (i : ℕ) (hi : i < ids.length) (hd : i < docs.length) :
    ("note_id", ids.get ⟨i, hi⟩) ∈ (docs.get ⟨i, hd⟩).extra_info := by
  have hm := load_data_go_extra env ids docs h
  have h1 := List.get_of_eq hm ⟨i, by simpa using hd⟩
  simp only [List.get_eq_getElem, List.getElem_map] at h1
  simp [List.get_eq_getElem, h1]

/-- Witness for C3: the single record for id `"X"` carries
`("note_id", "X")`. -/
theorem load_data_metadata_note_id_witness :
    ("note_id", (["X"] : List String).get ⟨0, by decide⟩) ∈
      (([{ text := "Title: Groceries\nBody: Milk\nEggs",
           extra_info := [("note_id", "X")] }] : List Document).get ⟨0, by decide⟩).extra_info :=
  load_data_metadata_note_id envG ["X"]
    [{ text := "Title: Groceries\nBody: Milk\nEggs", extra_info := [("note_id", "X")] }]
    rfl 0 (by decide) (by decide)

/-- Counterexample to C6 as stated: with the credential file absent,
`_get_credentials` does raise `RuntimeError`, yet the load call on the empty
id list succeeds (it never reaches a fetch), so it is not true that any
`load` call fails. -/
theorem load_data_empty_no_creds_succeeds :
    _get_credentials envNoCred = Except.error KeepError.runtimeError ∧
    (load_data envNoCred (some [])).1 = Except.ok [] :=
  ⟨rfl, rfl⟩

/-- Claim C6 (amended): with the credential file absent, `_get_credentials`
fails with `RuntimeError`, and any `load_data` call with at least one id
fails with that same error before issuing any remote call — its only
external event is the credential-file probe. -/
theorem no_creds_load_fails (env : Env) (hc : env.credentialFileExists = false)
    (note_id : String) (ids : List String) :
    _get_credentials env = Except.error KeepError.runtimeError ∧
    load_data env (some (note_id :: ids)) =
      (Except.error KeepError.runtimeError, [Event.credLoad]) := by
  constructor
  · simp [ _get_credentials, hc]
  · simp [load_data, load_data_go, _load_note, _get_credentials, hc]

/-- Witness for the amended C6 at the concrete credential-less environment. -/
theorem no_creds_load_fails_witness :
    _get_credentials envNoCred = Except.error KeepError.runtimeError ∧
    load_data envNoCred (some ("X" :: [])) =
      (Except.error KeepError.runtimeError, [Event.credLoad]) :=
  no_creds_load_fails envNoCred rfl "X" []

/-- With credentials present, a remote failure makes `_load_note` raise the
remote error. -/
theorem load_note_remote_fail (env : Env) (note_id : String)
    (hc : env.credentialFileExists = true)
    (hr : env.remote ("notes/" ++ note_id) = Except.error ()) :
    (_load_note env note_id).1 = Except.error KeepError.remoteError := by
  simp [ _load_note, _get_credentials, hc, hr]

/-- If every id in the list fetches successfully, the loop returns a list of
records of the same length. -/
theorem load_data_go_all_ok (env : Env) :
    ∀ ids : List String, (∀ note_id ∈ ids, noteOk env note_id) →
      ∃ docs, (load_data_go env ids).1 = Except.ok docs ∧ docs.length = ids.length := by
  intro ids
  induction ids with
  | nil => intro _; exact ⟨[], rfl, rfl⟩
  | cons id rest ih =>
    intro h
    obtain ⟨t, ht⟩ := h id (by simp)
    obtain ⟨docs, hdocs, hlen⟩ := ih (fun x hx => h x (by simp [hx]))
    rcases hl1 : _load_note env id with ⟨res, ev⟩
    rw [hl1] at ht
    simp at ht
    subst ht
    rcases hg : load_data_go env rest with ⟨res2, ev2⟩
    rw [hg] at hdocs
    simp at hdocs
    subst hdocs
    exact ⟨{ text := t, extra_info := [("note_id", id)] } :: docs,
      by simp [load_data_go, hl1, hg], by simp [hlen]⟩

/-- If every id before `bad` fetches successfully and `bad` itself raises
error `e`, the whole loop raises `e` and yields no list. -/
theorem load_data_go_first_fail (env : Env) (bad : String) (e : KeepError)
    (hbad : (_load_note env bad).1 = Except.error e) :
    ∀ pre post, (∀ note_id ∈ pre, noteOk env note_id) →
      (load_data_go env (pre ++ bad :: post)).1 = Except.error e := by
  intro pre
  induction pre with
  | nil =>
    intro post _
    rcases hl1 : _load_note env bad with ⟨res, ev⟩
    rw [hl1] at hbad
    simp at hbad
    subst hbad
    simp [load_data_go, hl1]
  | cons id rest ih =>
    intro post h
    obtain ⟨t, ht⟩ := h id (by simp)
    rcases hl1 : _load_note env id with ⟨res, ev⟩
    rw [hl1] at ht
    simp at ht
    subst ht
    have hrec := ih post (fun x hx => h x (by simp [hx]))
    rcases hg : load_data_go env (rest ++ bad :: post) with ⟨res2, ev2⟩
    rw [hg] at hrec
    simp at hrec
    subst hrec
    simp [load_data_go, hl1, hg]

/-- Claim C7: if the remote call fails for some id (all earlier ids
succeeding), `load_data` propagates the remote error and returns no partial
list; and re-invoking in an environment where every fetch succeeds returns
one record per id. -/
theorem remote_failure_aborts_load (env env2 : Env) (pre post : List String) (bad : String)
    (hc : env.credentialFileExists = true)
    (hpre : ∀ note_id ∈ pre, noteOk env note_id)
    (hbad : env.remote ("notes/" ++ bad) = Except.error ())
    (hgood : ∀ note_id ∈ pre ++ bad :: post, noteOk env2 note_id) :
    (load_data env (some (pre ++ bad :: post))).1 = Except.error KeepError.remoteError ∧
    ∃ docs, (load_data env2 (some (pre ++ bad :: post))).1 = Except.ok docs ∧
      docs.length = (pre ++ bad :: post).length :=
  ⟨load_data_go_first_fail env bad KeepError.remoteError
      (load_note_remote_fail env bad hc hbad) pre post hpre,
   load_data_go_all_ok env2 (pre ++ bad :: post) hgood⟩

/-- A concrete environment in which the fetch of note `"b"` fails remotely
and every other note answers with a well-formed response. -/
def envFail2 : Env :=
  { credentialFileExists := true
    remote := fun p =>
      if p = "notes/b" then Except.error ()
      else Except.ok { title := some "Groceries", body := some { text := some "Milk\nEggs" } } }

/-- Witness for C7: three ids with the second failing remotely, and the
healthy environment returning all three records. -/
theorem remote_failure_aborts_load_witness :
    (load_data envFail2 (some (["a"] ++ "b" :: ["c"]))).1 = Except.error KeepError.remoteError ∧
    ∃ docs, (load_data envG (some (["a"] ++ "b" :: ["c"]))).1 = Except.ok docs ∧
      docs.length = (["a"] ++ "b" :: ["c"]).length :=
  remote_failure_aborts_load envFail2 envG ["a"] ["c"] "b" rfl
    (by intro x hx; simp at hx; subst hx; exact ⟨_, rfl⟩)
    rfl
    (by intro x hx; exact ⟨_, rfl⟩)

/-- Claim C8: on a response whose body is not plain text (no `body` object,
or a `body` without a `text` field), `_load_note` fails — with the
`AttributeError` (`None.get`) or the `TypeError` (`str + None`) that stand
for the spec's `MalformedNoteError` — and never returns a normalized text. -/
theorem malformed_body_fails (env : Env) (note_id : String) (note : NoteResponse)
    (hc : env.credentialFileExists = true)
    (hr : env.remote ("notes/" ++ note_id) = Except.ok note)
    (hb : note.body = none ∨ ∃ b, note.body = some b ∧ b.text = none) :
    (_load_note env note_id).1 = Except.error KeepError.attributeError ∨
    (_load_note env note_id).1 = Except.error KeepError.typeError := by
  rcases note with ⟨title, body⟩
  cases title with
  | none =>
    right
    simp [ _load_note, _get_credentials, hc, hr]
  | some t0 =>
    rcases hb with hb | ⟨b, hb, hbt⟩
    · simp only at hb
      subst hb
      left
      simp [ _load_note, _get_credentials, hc, hr]
    · simp only at hb
      subst hb
      right
      simp [ _load_note, _get_credentials, hc, hr, hbt]

/-- A concrete environment whose note response has a title but no `body`
object at all. -/
def envNoBody : Env :=
  { credentialFileExists := true
    remote := fun _ => Except.ok { title := some "Groceries", body := none } }

/-- Witness for C8: a response without a `body` object fails to normalize. -/
theorem malformed_body_fails_witness :
    (_load_note envNoBody "X").1 = Except.error KeepError.attributeError ∨
    (_load_note envNoBody "X").1 = Except.error KeepError.typeError :=
  malformed_body_fails envNoBody "X" { title := some "Groceries", body := none }
    rfl rfl (Or.inl rfl)

/-- Claim C10: on a response whose `title` field is absent, `_load_note`
fails (Python's `TypeError` from `'Title: ' + None`) rather than producing
a record with a missing or placeholder title. -/
theorem missing_title_fails (env : Env) (note_id : String) (note : NoteResponse)
    (hc : env.credentialFileExists = true)
    (hr : env.remote ("notes/" ++ note_id) = Except.ok note)
    (ht : note.title = none) :
    (_load_note env note_id).1 = Except.error KeepError.typeError := by
  simp [ _load_note, _get_credentials, hc, hr, ht]

/-- A concrete environment whose note response has a plain-text body but no
`title` field. -/
def envNoTitle : Env :=
  { credentialFileExists := true
    remote := fun _ => Except.ok { title := none, body := some { text := some "B" } } }

/-- Witness for C10: a response without a title fails. -/
theorem missing_title_fails_witness :
    (_load_note envNoTitle "X").1 = Except.error KeepError.typeError :=
  missing_title_fails envNoTitle "X" { title := none, body := some { text := some "B" } }
    rfl rfl rfl

/-- Split a character list at each newline; mirrors splitting a string into
its lines (the single-character separator case of `String.splitOn "\n"`). -/
def splitLines : List Char → List (List Char)
  | [] => [[]]
  | c :: cs =>
    if c = '\n' then [] :: splitLines cs
    else
      match splitLines cs with
      | [] => [[c]]
      | l :: ls => (c :: l) :: ls

/-- Prepending newline-free characters extends the first line of the split. -/
theorem splitLines_append :
    ∀ l : List Char, '\n' ∉ l → ∀ (cs r : List Char) (rs : List (List Char)),
      splitLines cs = r :: rs → splitLines (l ++ cs) = (l ++ r) :: rs := by
  intro l
  induction l with
  | nil =>
    intro _ cs r rs h
    simpa using h
  | cons c l ih =>
    intro hl cs r rs h
    simp only [List.mem_cons, not_or] at hl
    have hc : ¬ c = '\n' := fun hcc => hl.1 hcc.symm
    have hrec := ih hl.2 cs r rs h
    simp [splitLines, if_neg hc, hrec]

/-- A newline-free character list is a single line. -/
theorem splitLines_single (l : List Char) (hl : '\n' ∉ l) : splitLines l = [l] := by
  have h := splitLines_append l hl [] [] [] rfl
  simpa using h

/-- A leading newline opens a fresh empty line. -/
theorem splitLines_cons_newline (cs : List Char) :
    splitLines ('\n' :: cs) = [] :: splitLines cs := by
  simp [splitLines]

/-- The normalized note shape splits into exactly the title line and the
body line when neither part contains a newline. -/
theorem splitLines_title_body (T B : List Char) (hT : '\n' ∉ T) (hB : '\n' ∉ B) :
    splitLines (("Title: ".data ++ T) ++ '\n' :: ("Body: ".data ++ B)) =
      [("Title: ".data ++ T), ("Body: ".data ++ B)] := by
  have hTd : '\n' ∉ "Title: ".data := by decide
  have hBd : '\n' ∉ "Body: ".data := by decide
  have hTall : '\n' ∉ "Title: ".data ++ T := by
    simp only [List.mem_append, not_or]
    exact ⟨hTd, hT⟩
  have hBall : '\n' ∉ "Body: ".data ++ B := by
    simp only [List.mem_append, not_or]
    exact ⟨hBd, hB⟩
  have h1 : splitLines ("Body: ".data ++ B) = [("Body: ".data ++ B)] :=
    splitLines_single _ hBall
  have h2 : splitLines ('\n' :: ("Body: ".data ++ B)) = [[], ("Body: ".data ++ B)] := by
    rw [splitLines_cons_newline, h1]
  have h3 := splitLines_append _ hTall _ _ _ h2
  simpa using h3

/-- Counterexample to C9 as stated: the spec's own example note (title
`"Groceries"`, plain-text body `"Milk\nEggs"`) normalizes successfully, yet
the produced text has three lines, not two, because the body contains a
newline. -/
theorem newline_body_three_lines :
    (_load_note envG "X").1 = Except.ok "Title: Groceries\nBody: Milk\nEggs" ∧
    (splitLines ("Title: Groceries\nBody: Milk\nEggs").data).length = 3 :=
  ⟨rfl, by decide⟩

/-- Claim C9 (amended): for every note with title `T` and plain-text body
`B` such that neither `T` nor `B` contains a newline character, the text
produced by `_load_note` splits on newline into exactly two lines, the
first being `"Title: " ++ T` and the second `"Body: " ++ B`. -/
theorem two_line_format (env : Env) (note_id T B : String)
    (hc : env.credentialFileExists = true)
    (hr : env.remote ("notes/" ++ note_id) =
      Except.ok { title := some T, body := some { text := some B } })
    (hT : '\n' ∉ T.data) (hB : '\n' ∉ B.data) :
    (_load_note env note_id).1 = Except.ok ("Title: " ++ T ++ "\n" ++ "Body: " ++ B) ∧
    splitLines ("Title: " ++ T ++ "\n" ++ "Body: " ++ B).data =
      [("Title: " ++ T).data, ("Body: " ++ B).data] := by
  constructor
  · rw [load_note_ok_helper env note_id T B hc hr]
  · have hTB := splitLines_title_body T.data B.data hT hB
    have hnl : "\n".data = ['\n'] := rfl
    simp only [String.data_append, hnl, List.append_assoc, List.singleton_append] at hTB ⊢
    exact hTB

/-- A concrete environment whose note has a single-line plain-text body. -/
def envPlain : Env :=
  { credentialFileExists := true
    remote := fun _ =>
      Except.ok { title := some "Groceries", body := some { text := some "Milk" } } }

/-- Witness for the amended C9 at a newline-free title and body. -/
theorem two_line_format_witness :
    (_load_note envPlain "X").1 =
      Except.ok ("Title: " ++ "Groceries" ++ "\n" ++ "Body: " ++ "Milk") ∧
    splitLines ("Title: " ++ "Groceries" ++ "\n" ++ "Body: " ++ "Milk").data =
      [("Title: " ++ "Groceries").data, ("Body: " ++ "Milk").data] :=
  two_line_format envPlain "X" "Groceries" "Milk" rfl rfl (by decide) (by decide)
